import Mathlib

/-!
Shallow embedding of the task lifecycle engine of the ci-test-2
orchestrator: the task model (`internal/models/task.go`), the task service
(`internal/services/task_service.go`), the HTTP task handler
(`internal/api/handlers/tasks.go`) and the worker's post-execution status
update (`internal/worker`).  Statuses are Go `type TaskStatus string`;
they are embedded as plain strings.  The persistent store is embedded as a
list of tasks; a GORM `Save` runs the `BeforeUpdate` hook and then writes
the row, a `Create` runs `BeforeCreate` and inserts.
-/

namespace CiTest2

/-- Go: `type TaskStatus string`. -/
abbrev TaskStatus := String

/-- Go constant `TaskStatusQueued TaskStatus = "queued"` -/
def TaskStatusQueued : TaskStatus := "queued"

/-- Go constant `TaskStatusRunning TaskStatus = "running"` -/
def TaskStatusRunning : TaskStatus := "running"

/-- Go constant `TaskStatusRetrying TaskStatus = "retrying"` -/
def TaskStatusRetrying : TaskStatus := "retrying"

/-- Go constant `TaskStatusNeedsReview TaskStatus = "needs_review"` -/
def TaskStatusNeedsReview : TaskStatus := "needs_review"

/-- Go constant `TaskStatusSuccess TaskStatus = "success"` -/
def TaskStatusSuccess : TaskStatus := "success"

/-- Go constant `TaskStatusAborted TaskStatus = "aborted"` -/
def TaskStatusAborted : TaskStatus := "aborted"

/-- Go constant `TaskStatusError TaskStatus = "error"` -/
def TaskStatusError : TaskStatus := "error"

/-- Go `func (ts TaskStatus) IsValid() bool`: the switch over the seven
enumerated values. -/
def statusIsValid (ts : TaskStatus) : Bool :=
  ts == TaskStatusQueued || ts == TaskStatusRunning || ts == TaskStatusRetrying ||
  ts == TaskStatusNeedsReview || ts == TaskStatusSuccess || ts == TaskStatusAborted ||
  ts == TaskStatusError

/-- Go `func (ts TaskStatus) IsTerminal() bool`. -/
def statusIsTerminal (ts : TaskStatus) : Bool :=
  ts == TaskStatusSuccess || ts == TaskStatusAborted || ts == TaskStatusError

/-- Go `gorm.ErrInvalidValue` sentinel, as returned by the model hooks and
`Task.UpdateStatus`.  Only its identity matters to the embedded code; the
handler compares wrapped messages against the literal string
"invalid value". -/
def ErrInvalidValue : String := "invalid value"

/-- Go `type Task struct` from `internal/models/task.go`.  Timestamps are
embedded as naturals (only their order is ever consulted);
`CIRunID *int64` becomes `Option Int`; `Attempts int` becomes `Int`. -/
structure Task where
  id : String
  repo : String
  branch : String
  threadId : String
  prompt : String
  status : TaskStatus
  ciRunId : Option Int
  attempts : Int
  summary : String
  branchUrl : String
  prUrl : String
  createdAt : Nat
  updatedAt : Nat
deriving Repr, DecidableEq

/-- Go `func (t *Task) BeforeCreate(tx *gorm.DB) error`: an invalid status
is replaced by `queued`; the hook never errors. -/
def beforeCreate (t : Task) : Task :=
  if !(statusIsValid t.status) then { t with status := TaskStatusQueued } else t

/-- Go `func (t *Task) BeforeUpdate(tx *gorm.DB) error`: an invalid status
aborts the update with `gorm.ErrInvalidValue`. -/
def beforeUpdate (t : Task) : Except String Task :=
  if !(statusIsValid t.status) then .error ErrInvalidValue else .ok t

/-- The `validTransitions` map literal inside Go
`func (t *Task) CanTransitionTo`: `none` models a key absent from the map. -/
def validTransitions (s : TaskStatus) : Option (List TaskStatus) :=
  if s == TaskStatusQueued then
    some [TaskStatusRunning, TaskStatusAborted]
  else if s == TaskStatusRunning then
    some [TaskStatusRetrying, TaskStatusNeedsReview, TaskStatusSuccess,
          TaskStatusError, TaskStatusAborted]
  else if s == TaskStatusRetrying then
    some [TaskStatusRunning, TaskStatusNeedsReview, TaskStatusError,
          TaskStatusAborted]
  else if s == TaskStatusNeedsReview then
    some [TaskStatusRunning, TaskStatusAborted]
  else
    none

/-- Go `func (t *Task) CanTransitionTo(newStatus TaskStatus) bool`:
a terminal current status only admits `aborted`; otherwise the
`validTransitions` map is consulted. -/
def canTransitionTo (t : Task) (newStatus : TaskStatus) : Bool :=
  if statusIsTerminal t.status then
    newStatus == TaskStatusAborted
  else
    match validTransitions t.status with
    | none => false
    | some allowed => allowed.contains newStatus

/-- Go `func (t *Task) UpdateStatus(newStatus TaskStatus) error`: rejects
with `gorm.ErrInvalidValue` when `CanTransitionTo` refuses, otherwise sets
the status in place.  `.ok` carries the mutated task. -/
def updateStatus (t : Task) (newStatus : TaskStatus) : Except String Task :=
  if !(canTransitionTo t newStatus) then .error ErrInvalidValue
  else .ok { t with status := newStatus }

/-- Go `func (t *Task) IsRetryable(maxRetries int) bool`. -/
def isRetryable (t : Task) (maxRetries : Int) : Bool :=
  t.attempts < maxRetries &&
    (t.status == TaskStatusError || t.status == TaskStatusRetrying ||
     t.status == TaskStatusNeedsReview)

/-- Go byte slicing `s[:n]` as used on (ASCII) ULID identifiers in
`CreateTask`: the first `n` characters. -/
def goSlice (s : String) (n : Nat) : String :=
  ⟨s.data.take n⟩

/-- A character of Crockford's base32 alphabet
`0123456789ABCDEFGHJKMNPQRSTVWXYZ` (digits and uppercase letters except
I, L, O, U) — the alphabet of `ulid.Make().String()`. -/
def crockfordChar (c : Char) : Bool :=
  c.isDigit || (c.isUpper && c != 'I' && c != 'L' && c != 'O' && c != 'U')

/-- The shape of a `github.com/oklog/ulid/v2` identifier as produced by
`ulid.Make().String()`: 26 characters of Crockford's base32 alphabet. -/
def isULID (s : String) : Bool :=
  s.data.length == 26 && s.data.all crockfordChar

/-! ## Task service (`internal/services/task_service.go`)

The GORM database is embedded as a `List Task`; `db.Save` runs the
`BeforeUpdate` hook and, when it passes, replaces the row with the same id.
Service functions that mutate a single fetched row are split into a core
acting on the row (mirroring the Go control flow after `GetTask`) and a
store-level wrapper. -/

/-- The fresh `models.Task` literal built by Go `CreateTask` from a
generated ULID `genId`, before insertion.  `now` stands for the
`autoCreateTime`/`autoUpdateTime` stamps. -/
def newTask (genId repo prompt : String) (now : Nat) : Task :=
  { id := genId
    repo := repo
    branch := "amp/" ++ goSlice genId 6
    threadId := "thread-" ++ goSlice genId 8
    prompt := prompt
    status := TaskStatusQueued
    ciRunId := none
    attempts := 0
    summary := ""
    branchUrl := ""
    prUrl := ""
    createdAt := now
    updatedAt := now }

/-- Go `func (s *TaskService) CreateTask(repo, prompt string)`: builds the
task from a freshly minted ULID and inserts it via `db.Create` (which runs
`BeforeCreate` and fails on a duplicate primary key).  The generated id is
a parameter, standing for the nondeterministic `ulid.Make().String()`. -/
def createTask (store : List Task) (genId repo prompt : String) (now : Nat) :
    Except String (Task × List Task) :=
  let task := beforeCreate (newTask genId repo prompt now)
  if store.any (fun t => t.id == genId) then
    .error "failed to create task: duplicate id"
  else
    .ok (task, store ++ [task])

/-- Go `func (s *TaskService) GetTask(id string)`: `db.First` on the
primary key, mapping `gorm.ErrRecordNotFound` to "task not found". -/
def getTask (store : List Task) (id : String) : Except String Task :=
  match store.find? (fun t => t.id == id) with
  | some t => .ok t
  | none => .error "task not found"

/-- Go `db.Save(task)` inside `UpdateTask`: runs `BeforeUpdate`, wrapping a
hook failure as "failed to save updated task: ...". `.ok (some t)` means
the row `t` was written; the service then returns nil. -/
def saveUpdatedTask (t : Task) : Except String (Option Task) :=
  match beforeUpdate t with
  | .error e => .error ("failed to save updated task: " ++ e)
  | .ok t2 => .ok (some t2)

/-- Go `func (s *TaskService) UpdateTask(id, action, prompt string)`, the
part after `GetTask`, acting on the fetched row.  `.ok (some t)` = returned
nil and wrote row `t`; `.ok none` = returned nil without writing (the
early `return nil` for aborting an already-successful task); `.error` =
returned the error without writing.  The `abort` arm flattens Go's nested
`if` (outer: terminal and not aborted; inner: success → return nil). -/
def updateTaskCore (task : Task) (action prompt : String) :
    Except String (Option Task) :=
  if action == "continue" then
    if !(isRetryable task 3) then
      .error ("task cannot be continued: status=" ++ task.status ++
              ", attempts=" ++ toString task.attempts)
    else
      let task1 := if prompt != "" then { task with prompt := prompt } else task
      match updateStatus task1 TaskStatusQueued with
      | .error e => .error ("failed to update task status: " ++ e)
      | .ok task2 => saveUpdatedTask task2
  else if action == "abort" then
    if statusIsTerminal task.status && task.status != TaskStatusAborted &&
       task.status == TaskStatusSuccess then
      .ok none
    else
      match updateStatus task TaskStatusAborted with
      | .error e => .error ("failed to abort task: " ++ e)
      | .ok task2 => saveUpdatedTask task2
  else
    .error ("invalid action: " ++ action)

/-- Writing row `t` back into the store (`db.Save` on an existing key). -/
def saveToStore (store : List Task) (t : Task) : List Task :=
  store.map (fun u => if u.id == t.id then t else u)

/-- Go `UpdateTask` end to end: fetch, act, save.  `.ok store2` is the
store after the call returned nil. -/
def updateTask (store : List Task) (id action prompt : String) :
    Except String (List Task) :=
  match getTask store id with
  | .error e => .error e
  | .ok task =>
    match updateTaskCore task action prompt with
    | .error e => .error e
    | .ok none => .ok store
    | .ok (some t2) => .ok (saveToStore store t2)

/-- The oldest element by `created_at` (SQL `ORDER BY created_at ASC` +
`First`). -/
def minByCreatedAt : List Task → Option Task
  | [] => none
  | t :: ts =>
    match minByCreatedAt ts with
    | none => some t
    | some b => if t.createdAt < b.createdAt then some t else some b

/-- Go `func (s *TaskService) GetNextTask(ctx)`: `Where(status = queued)`,
`Order(created_at ASC)`, `First`; `gorm.ErrRecordNotFound` becomes
`(nil, nil)`, i.e. `none` with no error.  The store is not written. -/
def getNextTask (store : List Task) : Option Task :=
  minByCreatedAt (store.filter (fun t => t.status == TaskStatusQueued))

/-- Go `func (s *TaskService) UpdateTaskStatus(ctx, taskID, status)`, the
part after the fetch: assigns `task.Status = TaskStatus(status)` with no
transition check and saves; only the `BeforeUpdate` hook can reject, and it
checks validity alone. -/
def updateTaskStatus (task : Task) (status : String) : Except String Task :=
  let task1 := { task with status := (status : TaskStatus) }
  match beforeUpdate task1 with
  | .error e => .error ("failed to update task status: " ++ e)
  | .ok t2 => .ok t2

/-- Go `func (s *TaskService) UpdateTaskModel(ctx, task)`: a bare
`db.Save`, so only the `BeforeUpdate` hook can reject. -/
def updateTaskModel (task : Task) : Except String Task :=
  match beforeUpdate task with
  | .error e => .error ("failed to update task: " ++ e)
  | .ok t2 => .ok t2

/-! ## HTTP task handler (`internal/api/handlers/tasks.go`) -/

/-- Outcome of a handler: an HTTP status code plus, for `ListTasks`, the
effective limit and offset passed on to the service. -/
inductive ListTasksOutcome where
  | badRequest (message : String)
  | ok (limit offset : Int)
deriving Repr, DecidableEq

/-- Go `func (h *TaskHandler) ListTasks` parameter handling on the already
`Atoi`-parsed `limit` and `offset` (defaults 50 and 0): a negative value
is a 400 validation error; a limit above 100 is clamped to 100. -/
def listTasksParams (limit offset : Int) : ListTasksOutcome :=
  if limit < 0 then
    .badRequest "Invalid limit parameter"
  else if offset < 0 then
    .badRequest "Invalid offset parameter"
  else
    let limit1 := if limit > 100 then 100 else limit
    .ok limit1 offset

/-- Go `func (h *TaskHandler) UpdateTask` error mapping: the HTTP status
chosen for a non-nil error returned by the service, compared by exact
message text. -/
def updateTaskErrorHttpStatus (msg : String) : Nat :=
  if msg == "task not found" then
    404
  else if msg == "task cannot be continued: status=success, attempts=3" ||
          msg == "failed to update task status: invalid value" then
    409
  else
    500

/-- HTTP status of a PATCH `/tasks/{id}` call, given the fetched row:
204 when the service returns nil, else the mapped error status. -/
def updateTaskHttpStatus (task : Task) (action prompt : String) : Nat :=
  match updateTaskCore task action prompt with
  | .ok _ => 204
  | .error e => updateTaskErrorHttpStatus e

/-! ## Worker (`internal/worker`, src/unnamed/part_007) -/

/-- The post-execution status assignment in `processTask`
(lines 114-127): `task.Status = "completed"` on success (together with the
result urls), `task.Status = "failed"` otherwise. -/
def applyProcessResult (task : Task) (success : Bool)
    (branchUrl prUrl : String) : Task :=
  if success then
    { task with status := ("completed" : TaskStatus),
                branchUrl := branchUrl, prUrl := prUrl }
  else
    { task with status := ("failed" : TaskStatus) }

/-- Regular expression `^amp/[a-z0-9]{6}$` from the spec's scenario A, as
a decidable matcher. -/
def branchMatchesLowerRe (s : String) : Bool :=
  match s.data with
  | 'a' :: 'm' :: 'p' :: '/' :: rest =>
    rest.length == 6 && rest.all (fun c => c.isLower || c.isDigit)
  | _ => false

/-- Regular expression `^amp/[0-9A-HJKMNP-TV-Z]{6}$` (six Crockford base32
characters after the `amp/` namespace), as a decidable matcher. -/
def branchMatchesCrockfordRe (s : String) : Bool :=
  match s.data with
  | 'a' :: 'm' :: 'p' :: '/' :: rest =>
    rest.length == 6 && rest.all crockfordChar
  | _ => false

/-- A concrete task used to instantiate theorems, with the given status
and attempt count. -/
def sampleTask (s : TaskStatus) (attempts : Int) : Task :=
  { id := "t1"
    repo := "owner/repo"
    branch := "amp/01ARZ3"
    threadId := "thread-01ARZ3ND"
    prompt := "fix bug"
    status := s
    ciRunId := none
    attempts := attempts
    summary := ""
    branchUrl := ""
    prUrl := ""
    createdAt := 0
    updatedAt := 0 }

end CiTest2

namespace CiTest2

/-- C1 counterexample: the claim asserts that `success → aborted` and
`error → aborted` are rejected by `Task.UpdateStatus`; in the code both are
accepted (`CanTransitionTo` admits `aborted` from every terminal state), so
the claim is false at a task with status `success`. -/
theorem claim1_terminal_aborted_accepted_cex :
    statusIsTerminal (sampleTask TaskStatusSuccess 0).status = true ∧
    updateStatus (sampleTask TaskStatusSuccess 0) TaskStatusAborted =
      .ok { sampleTask TaskStatusSuccess 0 with status := TaskStatusAborted } ∧
    updateStatus (sampleTask TaskStatusError 0) TaskStatusAborted =
      .ok { sampleTask TaskStatusError 0 with status := TaskStatusAborted } := by
  refine ⟨rfl, rfl, rfl⟩

/-- C1 (amended): for every task in a terminal status, `Task.UpdateStatus`
rejects every transition except those to `aborted`, which are accepted from
all three terminal states (so `aborted → aborted` is an idempotent no-op,
and `success → aborted`, `error → aborted` are accepted as well). -/
theorem claim1_terminal_transitions (t : Task) (s : TaskStatus)
    (h : statusIsTerminal t.status = true) :
    (s ≠ TaskStatusAborted → updateStatus t s = .error ErrInvalidValue) ∧
    (s = TaskStatusAborted →
      updateStatus t s = .ok { t with status := TaskStatusAborted }) := by
  constructor
  · intro hs
    have hb : (s == TaskStatusAborted) = false := by
      simp [hs]
    simp [updateStatus, canTransitionTo, h, hb]
  · intro hs
    subst hs
    simp [updateStatus, canTransitionTo, h]

/-- Witness for C1 (amended) at a concrete `success` task and target
`aborted`. -/
theorem claim1_terminal_transitions_witness :
    updateStatus (sampleTask TaskStatusSuccess 0) TaskStatusAborted =
      .ok { sampleTask TaskStatusSuccess 0 with status := TaskStatusAborted } :=
  (claim1_terminal_transitions (sampleTask TaskStatusSuccess 0)
    TaskStatusAborted (by decide)).2 rfl

/-- C3 (code bug): the worker's post-execution status update
(`processTask`) assigns the statuses `"completed"` and `"failed"`, which
are not among the seven enumerated values, so the subsequent save through
`UpdateTaskModel` is rejected by the `BeforeUpdate` hook and the task never
leaves `running`.  This contradicts the claimed invariant that every status
change is a §3.2 transition between enumerated statuses. -/
theorem claim3_worker_invalid_status :
    (applyProcessResult (sampleTask TaskStatusRunning 0) true "b" "p").status
      = "completed" ∧
    statusIsValid "completed" = false ∧
    updateTaskModel (applyProcessResult (sampleTask TaskStatusRunning 0) true "b" "p")
      = .error ("failed to update task: " ++ ErrInvalidValue) ∧
    (applyProcessResult (sampleTask TaskStatusRunning 0) false "" "").status
      = "failed" ∧
    statusIsValid "failed" = false ∧
    updateTaskModel (applyProcessResult (sampleTask TaskStatusRunning 0) false "" "")
      = .error ("failed to update task: " ++ ErrInvalidValue) := by
  refine ⟨rfl, by decide, rfl, rfl, by decide, rfl⟩

/-- Helper: `minByCreatedAt` returns `none` only on the empty list. -/
theorem minByCreatedAt_none {l : List Task}
    (h : minByCreatedAt l = none) : l = [] := by
  cases l with
  | nil => rfl
  | cons a as =>
    rw [minByCreatedAt] at h
    split at h
    · simp at h
    · split at h <;> simp at h

/-- Helper: a task returned by `minByCreatedAt` belongs to the list. -/
theorem minByCreatedAt_mem {l : List Task} {t : Task}
    (h : minByCreatedAt l = some t) : t ∈ l := by
  induction l generalizing t with
  | nil => simp [minByCreatedAt] at h
  | cons a as ih =>
    rw [minByCreatedAt] at h
    split at h
    · cases h
      exact List.mem_cons_self a as
    · rename_i b hm
      split at h
      · cases h
        exact List.mem_cons_self a as
      · cases h
        exact List.mem_cons_of_mem a (ih hm)

/-- Helper: a task returned by `minByCreatedAt` has the least
`created_at` in the list. -/
theorem minByCreatedAt_min {l : List Task} {t : Task}
    (h : minByCreatedAt l = some t) :
    ∀ u ∈ l, t.createdAt ≤ u.createdAt := by
  induction l generalizing t with
  | nil => simp [minByCreatedAt] at h
  | cons a as ih =>
    rw [minByCreatedAt] at h
    split at h
    · rename_i hm
      cases h
      have hnil := minByCreatedAt_none hm
      subst hnil
      intro u hu
      rcases List.mem_cons.mp hu with h1 | h1
      · rw [h1]
      · simp at h1
    · rename_i b hm
      split at h
      · rename_i hc
        cases h
        intro u hu
        rcases List.mem_cons.mp hu with h1 | h1
        · rw [h1]
        · exact le_of_lt (lt_of_lt_of_le hc (ih hm u h1))
      · rename_i hc
        cases h
        intro u hu
        rcases List.mem_cons.mp hu with h1 | h1
        · rw [h1]
          omega
        · exact ih hm u h1

/-- C4 counterexample: the claim asserts that claim-next transitions the
selected task to `running` in the same single step; in the code
`GetNextTask` is a bare SELECT — on a store holding one queued task it
returns that task still in `queued` (the store is not written; the worker
updates the status only later, in a separate `UpdateTaskStatus` call). -/
theorem claim4_no_transition_cex :
    getNextTask [sampleTask TaskStatusQueued 0] =
      some (sampleTask TaskStatusQueued 0) ∧
    (sampleTask TaskStatusQueued 0).status ≠ TaskStatusRunning := by
  refine ⟨rfl, by decide⟩

/-- C4 (amended): `GetNextTask` selects the oldest queued task and returns
it with its status unchanged (still `queued`; the store is not mutated —
the transition to `running` happens in a separate later update), and
returns empty without error when no queued task exists. -/
theorem claim4_get_next_task (store : List Task) :
    (∀ t, getNextTask store = some t →
      t ∈ store ∧ t.status = TaskStatusQueued ∧
      ∀ u ∈ store, u.status = TaskStatusQueued → t.createdAt ≤ u.createdAt) ∧
    (getNextTask store = none →
      ∀ u ∈ store, u.status ≠ TaskStatusQueued) := by
  constructor
  · intro t ht
    unfold getNextTask at ht
    have hmem := minByCreatedAt_mem ht
    have hmin := minByCreatedAt_min ht
    rw [List.mem_filter] at hmem
    refine ⟨hmem.1, by simpa using hmem.2, ?_⟩
    intro u hu hq
    exact hmin u (List.mem_filter.mpr ⟨hu, by simp [hq]⟩)
  · intro h u hu hq
    unfold getNextTask at h
    have := minByCreatedAt_none h
    have : u ∈ store.filter (fun t => t.status == TaskStatusQueued) :=
      List.mem_filter.mpr ⟨hu, by simp [hq]⟩
    rw [minByCreatedAt_none h] at this
    simp at this

/-- Witness for C4 (amended) on a two-task store: the older queued task is
selected, still `queued`. -/
theorem claim4_get_next_task_witness :
    (sampleTask TaskStatusQueued 0) ∈
      [sampleTask TaskStatusRunning 1, sampleTask TaskStatusQueued 0] ∧
    (sampleTask TaskStatusQueued 0).status = TaskStatusQueued ∧
    ∀ u ∈ [sampleTask TaskStatusRunning 1, sampleTask TaskStatusQueued 0],
      u.status = TaskStatusQueued →
      (sampleTask TaskStatusQueued 0).createdAt ≤ u.createdAt :=
  (claim4_get_next_task
    [sampleTask TaskStatusRunning 1, sampleTask TaskStatusQueued 0]).1
    (sampleTask TaskStatusQueued 0) (by decide)

/-- C5 (code bug): a `continue` on a task in `success` is rejected by the
service before any mutation or save (so the stored task is unchanged), but
the handler maps the error message to HTTP 409 Conflict only when it is
exactly "task cannot be continued: status=success, attempts=3"; for any
other attempt count (here 0) the PATCH answers 500, not Conflict. -/
theorem claim5_continue_on_success_http500 :
    updateTaskCore (sampleTask TaskStatusSuccess 0) "continue" "" =
      .error "task cannot be continued: status=success, attempts=0" ∧
    updateTask [sampleTask TaskStatusSuccess 0] "t1" "continue" "" =
      .error "task cannot be continued: status=success, attempts=0" ∧
    updateTaskHttpStatus (sampleTask TaskStatusSuccess 0) "continue" "" = 500 ∧
    updateTaskHttpStatus (sampleTask TaskStatusSuccess 3) "continue" "" = 409 := by
  refine ⟨rfl, rfl, rfl, rfl⟩

/-- C6: aborting a task whose status is already `aborted` returns success
(no error) and writes the task back unchanged — in particular its status
stays `aborted`, so `abort` is idempotent on aborted tasks. -/
theorem claim6_abort_idempotent (t : Task)
    (h : t.status = TaskStatusAborted) :
    updateTaskCore t "abort" "" = .ok (some t) := by
  obtain ⟨i, r, b, th, pr, st, ci, a, su, bu, pu, ca, ua⟩ := t
  dsimp only at h
  subst h
  rfl

/-- Witness for C6 at a concrete aborted task. -/
theorem claim6_abort_idempotent_witness :
    updateTaskCore (sampleTask TaskStatusAborted 2) "abort" "" =
      .ok (some (sampleTask TaskStatusAborted 2)) :=
  claim6_abort_idempotent (sampleTask TaskStatusAborted 2) rfl

/-- Helper: `find?` skips a prefix on which the predicate is false
everywhere. -/
theorem find?_append_of_forall_false {l1 l2 : List Task} {p : Task → Bool}
    (h : ∀ x ∈ l1, p x = false) : (l1 ++ l2).find? p = l2.find? p := by
  induction l1 with
  | nil => rfl
  | cons a as ih =>
    have ha := h a (List.mem_cons_self a as)
    rw [List.cons_append, List.find?_cons, ha]
    exact ih (fun x hx => h x (List.mem_cons_of_mem a hx))

/-- C7: creating a task (with a fresh generated id) and then getting it by
the returned id yields a task with the same repo and prompt, with status
`queued` and attempts `0`. -/
theorem claim7_create_get_roundtrip (store : List Task)
    (genId repo prompt : String) (now : Nat)
    (hfresh : ∀ u ∈ store, u.id ≠ genId) :
    ∃ t store2,
      createTask store genId repo prompt now = .ok (t, store2) ∧
      getTask store2 genId = .ok t ∧
      t.repo = repo ∧ t.prompt = prompt ∧
      t.status = TaskStatusQueued ∧ t.attempts = 0 := by
  have hany : store.any (fun t => t.id == genId) = false := by
    rw [List.any_eq_false]
    intro x hx
    simp [hfresh x hx]
  have hbc : beforeCreate (newTask genId repo prompt now) =
      newTask genId repo prompt now := rfl
  refine ⟨newTask genId repo prompt now,
          store ++ [newTask genId repo prompt now], ?_, ?_, rfl, rfl, rfl, rfl⟩
  · unfold createTask
    rw [hbc, hany]
    rfl
  · unfold getTask
    have hfind : (store ++ [newTask genId repo prompt now]).find?
        (fun t => t.id == genId) = some (newTask genId repo prompt now) := by
      rw [find?_append_of_forall_false (fun x hx => by simp [hfresh x hx])]
      rw [List.find?_cons]
      have hid : ((newTask genId repo prompt now).id == genId) = true := by
        simp [newTask]
      rw [hid]
    rw [hfind]

/-- Witness for C7 on an empty store and a concrete ULID. -/
theorem claim7_create_get_roundtrip_witness :
    ∃ t store2,
      createTask [] "01ARZ3NDEKTSV4RRFFQ69G5FAV" "owner/repo" "fix bug" 0 =
        .ok (t, store2) ∧
      getTask store2 "01ARZ3NDEKTSV4RRFFQ69G5FAV" = .ok t ∧
      t.repo = "owner/repo" ∧ t.prompt = "fix bug" ∧
      t.status = TaskStatusQueued ∧ t.attempts = 0 :=
  claim7_create_get_roundtrip [] "01ARZ3NDEKTSV4RRFFQ69G5FAV"
    "owner/repo" "fix bug" 0 (by simp)

/-- C8 counterexample: the claim asserts every created branch matches
`^amp/[a-z0-9]{6}$`; `ulid.Make().String()` produces uppercase Crockford
base32, so for the (valid) generated id `01ARZ3NDEKTSV4RRFFQ69G5FAV` the
created branch is `amp/01ARZ3`, which fails that lowercase pattern. -/
theorem claim8_branch_lowercase_cex :
    isULID "01ARZ3NDEKTSV4RRFFQ69G5FAV" = true ∧
    createTask [] "01ARZ3NDEKTSV4RRFFQ69G5FAV" "owner/repo" "fix bug" 0 =
      .ok (newTask "01ARZ3NDEKTSV4RRFFQ69G5FAV" "owner/repo" "fix bug" 0,
           [newTask "01ARZ3NDEKTSV4RRFFQ69G5FAV" "owner/repo" "fix bug" 0]) ∧
    (newTask "01ARZ3NDEKTSV4RRFFQ69G5FAV" "owner/repo" "fix bug" 0).branch =
      "amp/01ARZ3" ∧
    branchMatchesLowerRe "amp/01ARZ3" = false := by
  refine ⟨by decide, rfl, rfl, by decide⟩

/-- C8 (amended): for every created task whose generated id is a ULID
string (26 Crockford base32 characters), the branch equals `amp/` followed
by exactly the first 6 characters of the id, and it matches
`^amp/[0-9A-HJKMNP-TV-Z]{6}$` (uppercase Crockford base32), not the
lowercase pattern claimed. -/
theorem claim8_branch_shape (genId repo prompt : String) (now : Nat)
    (h : isULID genId = true) :
    (newTask genId repo prompt now).branch = "amp/" ++ goSlice genId 6 ∧
    branchMatchesCrockfordRe (newTask genId repo prompt now).branch = true := by
  have hparts : genId.data.length = 26 ∧ genId.data.all crockfordChar = true := by
    unfold isULID at h
    rw [Bool.and_eq_true] at h
    exact ⟨by simpa using h.1, h.2⟩
  refine ⟨rfl, ?_⟩
  show branchMatchesCrockfordRe ("amp/" ++ goSlice genId 6) = true
  unfold branchMatchesCrockfordRe
  have hdata : ("amp/" ++ goSlice genId 6).data =
      'a' :: 'm' :: 'p' :: '/' :: genId.data.take 6 := by
    rw [String.data_append]
    rfl
  rw [hdata]
  show ((genId.data.take 6).length == 6 && (genId.data.take 6).all crockfordChar)
      = true
  rw [Bool.and_eq_true]
  constructor
  · have hlen : (genId.data.take 6).length = 6 := by
      rw [List.length_take]
      omega
    simp [hlen]
  · rw [List.all_eq_true]
    intro x hx
    exact List.all_eq_true.mp hparts.2 x (List.take_subset 6 genId.data hx)

/-- Witness for C8 (amended) at a concrete ULID. -/
theorem claim8_branch_shape_witness :
    branchMatchesCrockfordRe
      (newTask "01ARZ3NDEKTSV4RRFFQ69G5FAV" "owner/repo" "fix bug" 0).branch
      = true :=
  (claim8_branch_shape "01ARZ3NDEKTSV4RRFFQ69G5FAV" "owner/repo" "fix bug" 0
    (by decide)).2

/-- C9: in the list-tasks handler a requested limit above 100 is clamped
to exactly 100, a negative limit is rejected with a validation error, and
a negative offset is rejected with a validation error. -/
theorem claim9_list_params (limit offset : Int) :
    (limit > 100 → 0 ≤ offset → listTasksParams limit offset = .ok 100 offset) ∧
    (limit < 0 → listTasksParams limit offset =
      .badRequest "Invalid limit parameter") ∧
    (0 ≤ limit → offset < 0 → listTasksParams limit offset =
      .badRequest "Invalid offset parameter") := by
  refine ⟨?_, ?_, ?_⟩
  · intro h1 h2
    unfold listTasksParams
    rw [if_neg (by omega), if_neg (by omega)]
    simp [if_pos h1]
  · intro h1
    unfold listTasksParams
    rw [if_pos h1]
  · intro h1 h2
    unfold listTasksParams
    rw [if_neg (by omega), if_pos h2]

/-- Witness for C9: limit 250 clamps to 100. -/
theorem claim9_list_params_witness :
    listTasksParams 250 0 = .ok 100 0 :=
  (claim9_list_params 250 0).1 (by decide) (by decide)

/-- C10: the service-level `UpdateTaskStatus` overwrites the status with
no transition check: every valid status value is accepted whatever the
current status (the conclusion does not depend on `t.status`, so e.g. a
`success` task can be set back to `running`), and an invalid value is
rejected at save time by the `BeforeUpdate` hook. -/
theorem claim10_update_task_status (t : Task) (s : String) :
    (statusIsValid s = true →
      updateTaskStatus t s = .ok { t with status := s }) ∧
    (statusIsValid s = false →
      updateTaskStatus t s =
        .error ("failed to update task status: " ++ ErrInvalidValue)) := by
  constructor <;> intro h <;>
    simp [updateTaskStatus, beforeUpdate, h]

/-- C2 (code bug): the `continue` action can never succeed.  Whenever the
retry-budget gate `IsRetryable` passes, the task's status is one of
`error`, `retrying`, `needs_review` — and `CanTransitionTo` admits
`queued` from none of them (`error` is terminal; the transition lists of
`retrying` and `needs_review` omit `queued`), so `UpdateStatus(queued)`
always fails and `UpdateTask` returns an error without saving, for every
task and every replacement prompt. -/
theorem claim2_continue_never_succeeds (task : Task) (p : String) :
    (updateTaskCore task "continue" p).isOk = false := by
  by_cases hr : isRetryable task 3 = true
  · have hs := hr
    unfold isRetryable at hs
    rw [Bool.and_eq_true, Bool.or_eq_true, Bool.or_eq_true] at hs
    obtain ⟨-, (h | h) | h⟩ := hs <;>
      rw [beq_iff_eq] at h <;>
      by_cases hp : (p != "") = true <;>
      simp [updateTaskCore, hr, hp, updateStatus, canTransitionTo,
        statusIsTerminal, validTransitions, h, TaskStatusError,
        TaskStatusRetrying, TaskStatusNeedsReview, TaskStatusQueued,
        TaskStatusSuccess, TaskStatusAborted, TaskStatusRunning,
        Except.isOk, Except.toBool]
  · simp [updateTaskCore, hr, Except.isOk, Except.toBool]

/-- Witness for C10: a terminal `success` task is set back to `running`,
a transition the §3.2 table forbids. -/
theorem claim10_update_task_status_witness :
    updateTaskStatus (sampleTask TaskStatusSuccess 0) "running" =
      .ok { sampleTask TaskStatusSuccess 0 with status := "running" } :=
  (claim10_update_task_status (sampleTask TaskStatusSuccess 0) "running").1
    (by decide)

end CiTest2
